import Mathlib

/-!
# Verification of the AccessGrid JS client request pipeline

A shallow embedding of `src/index.js` of the `accessgrid` JavaScript SDK:
the signer (`_generateSignature`: btoa, HMAC-SHA256, lowercase hex), the
payload/resource-id resolution and URL building of `BaseApi.request`, the
header construction (JS object spread semantics), the response status
dispatch, the catch-clause error wrapping, and the `AccessCardsApi.list`
post-processing.  Strings are Lean `String`s, JS byte views are `List Nat`
with values below 256, and the asynchronous `fetch` exchange is passed in
as an explicit outcome value.
-/

set_option maxRecDepth 100000

namespace AccessGridJs

/-! ## Bytes: UTF-8 (TextEncoder.encode), Latin-1 (btoa's domain) -/

/-- UTF-8 bytes of one character, as `TextEncoder.encode` produces them. -/
def utf8Char (c : Char) : List Nat :=
  let n := c.toNat
  if n < 128 then [n]
  else if n < 2048 then [192 + n / 64, 128 + n % 64]
  else if n < 65536 then [224 + n / 4096, 128 + n / 64 % 64, 128 + n % 64]
  else [240 + n / 262144, 128 + n / 4096 % 64, 128 + n / 64 % 64, 128 + n % 64]

/-- UTF-8 bytes of a string (`new TextEncoder().encode(s)`). -/
def utf8Bytes (s : String) : List Nat :=
  (s.toList.map utf8Char).flatten

/-- The Latin-1 bytes of a string, available exactly when every character is
below U+0100 — the domain condition `btoa` enforces. -/
def latin1Bytes (s : String) : Option (List Nat) :=
  if s.toList.all (fun c => c.toNat ≤ 255) then some (s.toList.map Char.toNat)
  else none

/-! ## Base64 (btoa) -/

/-- The standard base64 alphabet. -/
def base64Alphabet : List Char :=
  "ABCDEFGHIJKLMNOPQRSTUVWXYZabcdefghijklmnopqrstuvwxyz0123456789+/".toList

/-- The base64 digit for a 6-bit value. -/
def b64c (n : Nat) : Char := base64Alphabet.getD n 'A'

/-- Standard base64 encoding of a byte list, with `=` padding. -/
def base64Chars : List Nat → List Char
  | [] => []
  | [b0] => [b64c (b0 / 4), b64c (b0 % 4 * 16), '=', '=']
  | [b0, b1] => [b64c (b0 / 4), b64c (b0 % 4 * 16 + b1 / 16), b64c (b1 % 16 * 4), '=']
  | b0 :: b1 :: b2 :: rest =>
      b64c (b0 / 4) :: b64c (b0 % 4 * 16 + b1 / 16) ::
      b64c (b1 % 16 * 4 + b2 / 64) :: b64c (b2 % 64) :: base64Chars rest

/-- JS `btoa`: base64 of the Latin-1 bytes; fails (throws
`InvalidCharacterError`) when some character is above U+00FF. -/
def btoa (s : String) : Option String :=
  (latin1Bytes s).map (fun bs => String.mk (base64Chars bs))

/-- A stand-in for the platform's `InvalidCharacterError` message text thrown
by `btoa`; the pipeline only ever prefixes it, never inspects it. -/
def btoaFailureMessage : String :=
  "The string to be encoded contains characters outside of the Latin1 range."

/-! ## SHA-256 (the digest behind `crypto.subtle` HMAC-SHA-256) -/

/-- 32-bit right rotation. -/
def rotr32 (n x : Nat) : Nat := ((x >>> n) + (x <<< (32 - n))) % (2 ^ 32)

/-- 32-bit addition. -/
def add32 (a b : Nat) : Nat := (a + b) % (2 ^ 32)

/-- 32-bit complement. -/
def not32 (x : Nat) : Nat := x ^^^ (2 ^ 32 - 1)

/-- SHA-256 `Ch`. -/
def sha256Ch (x y z : Nat) : Nat := (x &&& y) ^^^ (not32 x &&& z)

/-- SHA-256 `Maj`. -/
def sha256Maj (x y z : Nat) : Nat := (x &&& y) ^^^ (x &&& z) ^^^ (y &&& z)

/-- SHA-256 Σ₀. -/
def bigSigma0 (x : Nat) : Nat := rotr32 2 x ^^^ rotr32 13 x ^^^ rotr32 22 x

/-- SHA-256 Σ₁. -/
def bigSigma1 (x : Nat) : Nat := rotr32 6 x ^^^ rotr32 11 x ^^^ rotr32 25 x

/-- SHA-256 σ₀. -/
def smallSigma0 (x : Nat) : Nat := rotr32 7 x ^^^ rotr32 18 x ^^^ (x >>> 3)

/-- SHA-256 σ₁. -/
def smallSigma1 (x : Nat) : Nat := rotr32 17 x ^^^ rotr32 19 x ^^^ (x >>> 10)

/-- The 64 SHA-256 round constants. -/
def sha256K : List Nat :=
  [1116352408, 1899447441, 3049323471, 3921009573, 961987163,
   1508970993, 2453635748, 2870763221, 3624381080, 310598401,
   607225278, 1426881987, 1925078388, 2162078206, 2614888103,
   3248222580, 3835390401, 4022224774, 264347078, 604807628,
   770255983, 1249150122, 1555081692, 1996064986, 2554220882,
   2821834349, 2952996808, 3210313671, 3336571891, 3584528711,
   113926993, 338241895, 666307205, 773529912, 1294757372,
   1396182291, 1695183700, 1986661051, 2177026350, 2456956037,
   2730485921, 2820302411, 3259730800, 3345764771, 3516065817,
   3600352804, 4094571909, 275423344, 430227734, 506948616,
   659060556, 883997877, 958139571, 1322822218, 1537002063,
   1747873779, 1955562222, 2024104815, 2227730452, 2361852424,
   2428436474, 2756734187, 3204031479, 3329325298]

/-- The running SHA-256 state: eight 32-bit words. -/
structure Hash8 where
  a : Nat
  b : Nat
  c : Nat
  d : Nat
  e : Nat
  f : Nat
  g : Nat
  h : Nat
deriving Repr, DecidableEq

/-- The SHA-256 initial hash value. -/
def sha256InitH : Hash8 :=
  ⟨1779033703, 3144134277, 1013904242, 2773480762,
   1359893119, 2600822924, 528734635, 1541459225⟩

/-- SHA-256 padding: append `0x80`, zeros to 56 mod 64, then the 64-bit
big-endian bit length. -/
def sha256Pad (msg : List Nat) : List Nat :=
  let len := msg.length
  let zeros := (119 - len % 64) % 64
  let bitLen := len * 8
  msg ++ [128] ++ List.replicate zeros 0 ++
    [bitLen / 2 ^ 56 % 256, bitLen / 2 ^ 48 % 256, bitLen / 2 ^ 40 % 256,
     bitLen / 2 ^ 32 % 256, bitLen / 2 ^ 24 % 256, bitLen / 2 ^ 16 % 256,
     bitLen / 2 ^ 8 % 256, bitLen % 256]

/-- A big-endian 32-bit word from the first four bytes of a list. -/
def beWord32 (bs : List Nat) : Nat :=
  bs.getD 0 0 * 2 ^ 24 + bs.getD 1 0 * 2 ^ 16 + bs.getD 2 0 * 2 ^ 8 + bs.getD 3 0

/-- The 64-word message schedule of one 64-byte block. -/
def sha256Schedule (block : List Nat) : List Nat :=
  let w0 := (List.range 16).map (fun j => beWord32 (block.drop (4 * j)))
  (List.range 48).foldl
    (fun w _ =>
      w ++ [(smallSigma1 (w.getD (w.length - 2) 0) + w.getD (w.length - 7) 0 +
             smallSigma0 (w.getD (w.length - 15) 0) + w.getD (w.length - 16) 0) % (2 ^ 32)])
    w0

/-- One SHA-256 round. -/
def sha256Round (st : Hash8) (k w : Nat) : Hash8 :=
  let t1 := (st.h + bigSigma1 st.e + sha256Ch st.e st.f st.g + k + w) % (2 ^ 32)
  let t2 := (bigSigma0 st.a + sha256Maj st.a st.b st.c) % (2 ^ 32)
  ⟨(t1 + t2) % (2 ^ 32), st.a, st.b, st.c, (st.d + t1) % (2 ^ 32), st.e, st.f, st.g⟩

/-- Compression of one 64-byte block into the running state. -/
def sha256Compress (hs : Hash8) (block : List Nat) : Hash8 :=
  let ws := sha256Schedule block
  let fin := (List.range 64).foldl
    (fun st i => sha256Round st (sha256K.getD i 0) (ws.getD i 0)) hs
  ⟨add32 hs.a fin.a, add32 hs.b fin.b, add32 hs.c fin.c, add32 hs.d fin.d,
   add32 hs.e fin.e, add32 hs.f fin.f, add32 hs.g fin.g, add32 hs.h fin.h⟩

/-- Big-endian bytes of a 32-bit word. -/
def be32 (n : Nat) : List Nat :=
  [n / 2 ^ 24 % 256, n / 2 ^ 16 % 256, n / 2 ^ 8 % 256, n % 256]

/-- The 32 digest bytes of a final state. -/
def hash8Bytes (hs : Hash8) : List Nat :=
  be32 hs.a ++ be32 hs.b ++ be32 hs.c ++ be32 hs.d ++
  be32 hs.e ++ be32 hs.f ++ be32 hs.g ++ be32 hs.h

/-- SHA-256 of a byte list. -/
def sha256 (msg : List Nat) : List Nat :=
  let p := sha256Pad msg
  let nBlocks := p.length / 64
  hash8Bytes ((List.range nBlocks).foldl
    (fun hs i => sha256Compress hs ((p.drop (64 * i)).take 64)) sha256InitH)

/-- HMAC-SHA-256 with a raw key, as `crypto.subtle.sign('HMAC', key, msg)`
computes it (RFC 2104). -/
def hmacSha256 (key msg : List Nat) : List Nat :=
  let k0 := if 64 < key.length then sha256 key else key
  let kPad := k0 ++ List.replicate (64 - k0.length) 0
  let ipad := kPad.map (fun b => b ^^^ 0x36)
  let opad := kPad.map (fun b => b ^^^ 0x5c)
  sha256 (opad ++ sha256 (ipad ++ msg))

/-! ## Lowercase hex rendering -/

/-- A lowercase hex digit (`Number.prototype.toString(16)` digit set). -/
def hexDigitL (n : Nat) : Char := "0123456789abcdef".toList.getD n '0'

/-- The two lowercase hex characters of one byte
(`b.toString(16).padStart(2, '0')`). -/
def byteToHex (b : Nat) : List Char := [hexDigitL (b / 16), hexDigitL (b % 16)]

/-- Hex characters of a byte list. -/
def bytesToHexChars : List Nat → List Char
  | [] => []
  | b :: bs => byteToHex b ++ bytesToHexChars bs

/-- Lowercase hex string of a byte list — the `Array.from(new Uint8Array(sig))
.map(b => b.toString(16).padStart(2, '0')).join('')` step. -/
def bytesToHex (bs : List Nat) : String := String.mk (bytesToHexChars bs)

/-! ## The signer: `BaseApi._generateSignature` -/

/-- `BaseApi._generateSignature`: base64-encode the payload with `btoa`, then
HMAC-SHA-256 with the UTF-8 bytes of the secret key over the UTF-8 bytes of
the base64 string, rendered as lowercase hex.  A `btoa` failure is caught and
re-thrown as an `AccessGridError` with the `Failed to generate signature: `
prefix; the error value here is that error's message. -/
def generateSignature (secretKey payload : String) : Except String String :=
  match btoa payload with
  | none => .error ("Failed to generate signature: " ++ btoaFailureMessage)
  | some encodedPayload =>
      .ok (bytesToHex (hmacSha256 (utf8Bytes secretKey) (utf8Bytes encodedPayload)))

/-! ## JS values and `JSON.stringify` -/

/-- A JS value as it can appear in a request body or parsed response:
`undefined`, `null`, booleans, (integer) numbers, strings, arrays, objects —
plus inherited native methods (such as `Array.prototype.keys`), which
property access on an array can surface. -/
inductive JVal where
  | jundefined
  | jnull
  | jbool (b : Bool)
  | jnum (n : Int)
  | jstr (s : String)
  | jarr (elems : List JVal)
  | jobj (fields : List (String × JVal))
  | jfun (name : String)
deriving Repr

/-- `JSON.stringify` escaping of one character inside a string literal. -/
def jsonEscapeChar (c : Char) : List Char :=
  if c = Char.ofNat 34 then [Char.ofNat 92, Char.ofNat 34]
  else if c = Char.ofNat 92 then [Char.ofNat 92, Char.ofNat 92]
  else if c = Char.ofNat 8 then [Char.ofNat 92, 'b']
  else if c = Char.ofNat 9 then [Char.ofNat 92, 't']
  else if c = Char.ofNat 10 then [Char.ofNat 92, 'n']
  else if c = Char.ofNat 12 then [Char.ofNat 92, 'f']
  else if c = Char.ofNat 13 then [Char.ofNat 92, 'r']
  else if c.toNat < 32 then
    [Char.ofNat 92, 'u', '0', '0', hexDigitL (c.toNat / 16), hexDigitL (c.toNat % 16)]
  else [c]

/-- A JSON string literal: quoted and escaped. -/
def jsonQuote (s : String) : String :=
  String.mk (Char.ofNat 34 :: ((s.toList.map jsonEscapeChar).flatten ++ [Char.ofNat 34]))

mutual

/-- `JSON.stringify`, on the JS-value fragment modelled here (numbers are
integers).  `none` is JS `undefined` — what `JSON.stringify` yields on
`undefined` itself. -/
def stringifyJ : JVal → Option String
  | .jundefined => none
  | .jfun _ => none
  | .jnull => some "null"
  | .jbool true => some "true"
  | .jbool false => some "false"
  | .jnum n => some (toString n)
  | .jstr s => some (jsonQuote s)
  | .jarr xs => some ("[" ++ String.intercalate "," (stringifyElems xs) ++ "]")
  | .jobj fs => some ("\x7b" ++ String.intercalate "," (stringifyFields fs) ++ "\x7d")

/-- Array elements: `undefined` renders as `null`. -/
def stringifyElems : List JVal → List String
  | [] => []
  | x :: xs => ((stringifyJ x).getD "null") :: stringifyElems xs

/-- Object fields: `undefined`-valued fields are skipped. -/
def stringifyFields : List (String × JVal) → List String
  | [] => []
  | (k, v) :: fs =>
    match stringifyJ v with
    | none => stringifyFields fs
    | some sv => (jsonQuote k ++ ":" ++ sv) :: stringifyFields fs

end

/-- The `Array.prototype` member names visible on every array, enough to
make every property name the SDK reads faithful (in particular `keys`). -/
def arrayProtoMethods : List String :=
  ["at", "concat", "entries", "every", "fill", "filter", "find", "findIndex",
   "flat", "flatMap", "forEach", "includes", "indexOf", "join", "keys", "map",
   "pop", "push", "reverse", "shift", "slice", "some", "sort", "splice",
   "toString", "unshift", "values"]

/-- JS property access `v.k`: a TypeError on a `null` or `undefined`
receiver; an own field on an object (missing fields read as `undefined`); an
inherited `Array.prototype` member (or the `length` count) on an array;
`undefined` on the remaining primitives. -/
def getField (v : JVal) (k : String) : Except String JVal :=
  match v with
  | .jnull => .error ("Cannot read properties of null (reading " ++ k ++ ")")
  | .jundefined => .error ("Cannot read properties of undefined (reading " ++ k ++ ")")
  | .jobj fs => .ok (((fs.find? (fun p => p.1 = k)).map (fun p => p.2)).getD .jundefined)
  | .jarr xs =>
      if k = "length" then .ok (.jnum xs.length)
      else if arrayProtoMethods.contains k then .ok (.jfun k)
      else .ok .jundefined
  | _ => .ok .jundefined

/-- JS truthiness of a value. -/
def jsTruthy : JVal → Bool
  | .jundefined => false
  | .jnull => false
  | .jbool b => b
  | .jnum n => decide (n ≠ 0)
  | .jstr s => decide (s ≠ "")
  | .jarr _ => true
  | .jobj _ => true
  | .jfun _ => true

mutual

/-- JS string coercion `String(v)`: arrays join their elements with commas
(`null`/`undefined` elements coerce to the empty string), objects render as
`[object Object]`, native functions as their source-ish text. -/
def jsDisplayString : JVal → String
  | .jundefined => "undefined"
  | .jnull => "null"
  | .jbool true => "true"
  | .jbool false => "false"
  | .jnum n => toString n
  | .jstr s => s
  | .jarr xs => String.intercalate "," (jsDisplayElems xs)
  | .jobj _ => "[object Object]"
  | .jfun name => "function " ++ name ++ "() \x7b [native code] \x7d"

/-- Array elements under `Array.prototype.join`: `null` and `undefined`
become empty strings. -/
def jsDisplayElems : List JVal → List String
  | [] => []
  | .jnull :: xs => "" :: jsDisplayElems xs
  | .jundefined :: xs => "" :: jsDisplayElems xs
  | x :: xs => jsDisplayString x :: jsDisplayElems xs

end

/-! ## `encodeURIComponent` -/

/-- The characters `encodeURIComponent` leaves unescaped:
`A-Z a-z 0-9 - _ . ! ~ * ' ( )`. -/
def isUriUnreserved (c : Char) : Bool :=
  let n := c.toNat
  (65 ≤ n && n ≤ 90) || (97 ≤ n && n ≤ 122) || (48 ≤ n && n ≤ 57) ||
    n == 45 || n == 95 || n == 46 || n == 33 || n == 126 || n == 42 ||
    n == 39 || n == 40 || n == 41

/-- An uppercase hex digit. -/
def hexDigitU (n : Nat) : Char := "0123456789ABCDEF".toList.getD n '0'

/-- `%XX` percent-encoding of one byte, uppercase hex. -/
def percentByte (b : Nat) : List Char := ['%', hexDigitU (b / 16), hexDigitU (b % 16)]

/-- JS `encodeURIComponent`: unreserved characters kept, all others
percent-encoded bytewise over their UTF-8 encoding. -/
def encodeURIComponent (s : String) : String :=
  String.mk ((s.toList.map (fun c =>
    if isUriUnreserved c then [c] else (utf8Char c).map percentByte |>.flatten)).flatten)

/-! ## The typed error hierarchy -/

/-- The SDK's error classes: `AccessGridError` and its subclass
`AuthenticationError` (whose constructor defaults the message to
`Invalid credentials`). -/
inductive AGError where
  | accessGridError (message : String)
  | authenticationError (message : String)
deriving Repr, DecidableEq

/-- The `message` property of a thrown SDK error. -/
def AGError.messageOf : AGError → String
  | .accessGridError m => m
  | .authenticationError m => m

/-- Anything the pipeline can throw: a typed SDK error (an
`instanceof AccessGridError`) or a plain platform error with a message. -/
inductive JsThrown where
  | api (e : AGError)
  | plain (message : String)
deriving Repr, DecidableEq

/-- The `catch` clause of `BaseApi.request`: a typed `AccessGridError` is
re-thrown unchanged; anything else is wrapped as
`AccessGridError('API request failed: ' + error.message)`. -/
def catchWrap : JsThrown → AGError
  | .api e => e
  | .plain m => .accessGridError ("API request failed: " ++ m)

/-! ## Path splitting and resource-id extraction -/

/-- The action words whose paths carry the card id second-to-last. -/
def actionWords : List String := ["suspend", "resume", "unlink", "delete"]

/-- Splitting a character list at every occurrence of a separator character —
the semantics of JS `String.prototype.split` with a one-character separator
(boundary occurrences produce empty segments). -/
def splitOnChar (sep : Char) : List Char → List (List Char)
  | [] => [[]]
  | c :: rest =>
    if c = sep then [] :: splitOnChar sep rest
    else
      match splitOnChar sep rest with
      | [] => [[c]]
      | g :: gs => (c :: g) :: gs

/-- `path.split('/').filter(part => part)`: split on `/`, drop empty
segments. -/
def pathParts (path : String) : List String :=
  ((splitOnChar '/' path.toList).map String.mk).filter (fun part => part ≠ "")

/-- The resource-id heuristic of `BaseApi.request`: with at least two
non-empty segments, the second-to-last segment when the last is an action
word, else the last segment; otherwise no id. -/
def extractResourceId (path : String) : Option String :=
  let parts := pathParts path
  if 2 ≤ parts.length then
    if actionWords.contains (parts.getLastD "") then
      some (parts.getD (parts.length - 2) "")
    else some (parts.getLastD "")
  else none

/-! ## The request pipeline: `BaseApi.request` -/

/-- An HTTP method of the SDK. -/
inductive Method where
  | GET
  | POST
  | PUT
  | PATCH
  | DELETE
deriving Repr, DecidableEq

/-- The `options` argument of `BaseApi.request`: an optional method
(defaulting to GET), an optional JS-object body, optional extra headers. -/
structure RequestOptions where
  method : Option Method := none
  body : Option (List (String × JVal)) := none
  headers : List (String × String) := []
deriving Repr

/-- `!options.body || Object.keys(options.body).length === 0`. -/
def bodyMissingOrEmpty : Option (List (String × JVal)) → Bool
  | none => true
  | some fs => decide (fs.length = 0)

/-- The resource id `BaseApi.request` derives: only for GET, or POST with a
missing-or-empty body, and then by `extractResourceId`. -/
def deriveResourceId (method : Method) (path : String)
    (body : Option (List (String × JVal))) : Option String :=
  if method = .GET ∨ (method = .POST ∧ bodyMissingOrEmpty body) then
    extractResourceId path
  else none

/-- `JSON.stringify({ id: resourceId })`. -/
def idPayload (rid : String) : String :=
  (stringifyJ (.jobj [("id", .jstr rid)])).getD ""

/-- The payload (used both as signing input and as the sent body): for POST
without a body or any GET, the synthetic `{"id": rid}` (or `{}` when no id
was derived); otherwise the JSON serialization of the body, or the empty
string when the body is absent. -/
def resolveSigPayload (method : Method) (body : Option (List (String × JVal)))
    (resourceId : Option String) : String :=
  if (method = .POST ∧ body.isNone) ∨ method = .GET then
    match resourceId with
    | some rid => idPayload rid
    | none => "{}"
  else
    match body with
    | some fs => (stringifyJ (.jobj fs)).getD ""
    | none => ""

/-- The payload `BaseApi.request` signs (and sends) for a given path and
options. -/
def sigPayloadOf (path : String) (opts : RequestOptions) : String :=
  resolveSigPayload (opts.method.getD .GET) opts.body
    (deriveResourceId (opts.method.getD .GET) path opts.body)

/-! ## Headers: JS object-spread semantics -/

/-- Setting one property on a JS object (modelled as an ordered key-value
list): an existing key is updated in place, a new key is appended. -/
def jsObjectSet (m : List (String × String)) (k v : String) :
    List (String × String) :=
  if m.any (fun p => p.1 = k) then
    m.map (fun p => if p.1 = k then (k, v) else p)
  else m ++ [(k, v)]

/-- JS object spread `{...base, ...extra}`. -/
def jsSpread (base extra : List (String × String)) : List (String × String) :=
  extra.foldl (fun acc p => jsObjectSet acc p.1 p.2) base

/-- Reading a property of a JS object modelled as a key-value list (keys are
unique by construction, so the first hit is the property's value). -/
def headerLookup (m : List (String × String)) (k : String) : Option String :=
  match m with
  | [] => none
  | (k2, v) :: rest => if k2 = k then some v else headerLookup rest k

/-- The headers `BaseApi.request` builds: the four mandatory entries, spread
together with the caller-supplied headers (which, being spread last, win on
key collisions). -/
def buildHeaders (accountId version signature : String)
    (callerHeaders : List (String × String)) : List (String × String) :=
  jsSpread
    [("Content-Type", "application/json"),
     ("X-ACCT-ID", accountId),
     ("X-PAYLOAD-SIG", signature),
     ("User-Agent", "accessgrid.js @ v" ++ version)]
    callerHeaders

/-! ## URL building -/

/-- Appending the `sig_payload` query parameter: `&`-separated when the URL
already has a query string, else `?`-separated. -/
def addSigPayload (url rid : String) : String :=
  let separator := if url.toList.contains '?' then "&" else "?"
  url ++ separator ++ "sig_payload=" ++ encodeURIComponent (idPayload rid)

/-- The final URL: `sig_payload` is appended only for GET, or POST with an
absent body, and only when a resource id was derived. -/
def resolveFinalUrl (url : String) (method : Method)
    (body : Option (List (String × JVal))) (resourceId : Option String) : String :=
  if method = .GET ∨ (method = .POST ∧ body.isNone) then
    match resourceId with
    | some rid => addSigPayload url rid
    | none => url
  else url

/-! ## The dispatcher -/

/-- The immutable per-client state of `BaseApi` (`baseUrl` already
normalized). -/
structure ClientConfig where
  accountId : String
  secretKey : String
  baseUrl : String
  version : String
deriving Repr, DecidableEq

/-- `baseUrl.replace(/\/$/, '')`: one trailing slash stripped. -/
def normalizeBaseUrl (s : String) : String :=
  if s.endsWith "/" then s.dropRight 1 else s

/-- The arguments `BaseApi.request` hands to `fetch`. -/
structure FetchCall where
  url : String
  method : Method
  headers : List (String × String)
  body : Option String
deriving Repr

/-- What the world answers to the `fetch` exchange: a network failure, or a
response with a status and a body whose JSON parse succeeds or fails. -/
inductive FetchOutcome where
  | networkFailure (message : String)
  | response (status : Nat) (jsonBody : Except String JVal)
deriving Repr

/-- `Response.ok` of the Fetch standard: status in the 2xx range. -/
def responseOk (status : Nat) : Bool := 200 ≤ status && status ≤ 299

/-- `x || 'Request failed'`, as the Error constructor coerces it: the JS
string rendering of a truthy message value, else the fallback. -/
def messageOrDefault (msgVal : JVal) : String :=
  if jsTruthy msgVal then jsDisplayString msgVal else "Request failed"

/-- The observable result of one `BaseApi.request` call: the resolved value
or thrown error, and the `fetch` call's arguments when one was issued. -/
structure RequestResult where
  outcome : Except AGError JVal
  fetched : Option FetchCall
deriving Repr

/-- `BaseApi.request`, with the asynchronous `fetch` exchange passed in as
`world`.  Mirrors the source: resource-id derivation, payload resolution,
signing (short-circuiting on failure before any fetch), header and URL
building, the fetch call (whose body is the payload for every non-GET
method), JSON parsing, the status dispatch, and the `catch` wrapper. -/
def request (cfg : ClientConfig) (path : String) (opts : RequestOptions)
    (world : FetchOutcome) : RequestResult :=
  let url := cfg.baseUrl ++ path
  let method := opts.method.getD .GET
  let resourceId := deriveResourceId method path opts.body
  let payload := resolveSigPayload method opts.body resourceId
  match generateSignature cfg.secretKey payload with
  | .error m =>
      { outcome := .error (catchWrap (.api (.accessGridError m))), fetched := none }
  | .ok signature =>
      let headers := buildHeaders cfg.accountId cfg.version signature opts.headers
      let finalUrl := resolveFinalUrl url method opts.body resourceId
      let call : FetchCall :=
        { url := finalUrl, method := method, headers := headers,
          body := if method = .GET then none else some payload }
      match world with
      | .networkFailure m =>
          { outcome := .error (catchWrap (.plain m)), fetched := some call }
      | .response status jsonBody =>
          match jsonBody with
          | .error m =>
              { outcome := .error (catchWrap (.plain m)), fetched := some call }
          | .ok data =>
              if !responseOk status then
                if status = 401 then
                  { outcome := .error (catchWrap (.api (.authenticationError "Invalid credentials"))),
                    fetched := some call }
                else if status = 402 then
                  { outcome := .error (catchWrap (.api (.accessGridError "Insufficient account balance"))),
                    fetched := some call }
                else
                  match getField data "message" with
                  | .error m =>
                      { outcome := .error (catchWrap (.plain m)), fetched := some call }
                  | .ok msgVal =>
                      { outcome := .error (catchWrap (.api (.accessGridError (messageOrDefault msgVal)))),
                        fetched := some call }
              else { outcome := .ok data, fetched := some call }

/-! ## Resource clients used by the claims -/

/-- The `AccessCard` model: constructor field mapping from wire names. -/
structure AccessCard where
  id : JVal
  url : JVal
  state : JVal
  fullName : JVal
  expirationDate : JVal
deriving Repr

/-- `new AccessCard(data)`: the `data = \x7b\x7d` default applies only to
`undefined`; the five field reads then run in declaration order and throw on
a `null` argument. -/
def toAccessCard (v : JVal) : Except String AccessCard :=
  let data := match v with
    | .jundefined => JVal.jobj []
    | x => x
  match getField data "id" with
  | .error m => .error m
  | .ok idv =>
    match getField data "install_url" with
    | .error m => .error m
    | .ok urlv =>
      match getField data "state" with
      | .error m => .error m
      | .ok statev =>
        match getField data "full_name" with
        | .error m => .error m
        | .ok namev =>
          match getField data "expiration_date" with
          | .error m => .error m
          | .ok expv =>
            .ok { id := idv, url := urlv, state := statev,
                  fullName := namev, expirationDate := expv }

/-- `items.map(item => new AccessCard(item))`: elements are converted in
order and the first throwing constructor aborts the map. -/
def mapToAccessCards : List JVal → Except String (List AccessCard)
  | [] => .ok []
  | v :: rest =>
    match toAccessCard v with
    | .error m => .error m
    | .ok card =>
      match mapToAccessCards rest with
      | .error m => .error m
      | .ok cards => .ok (card :: cards)

/-- `application/x-www-form-urlencoded` serialization of one character, as
`URLSearchParams.toString` produces it. -/
def formEncodeChar (c : Char) : List Char :=
  if c = ' ' then ['+']
  else
    let n := c.toNat
    if (65 ≤ n && n ≤ 90) || (97 ≤ n && n ≤ 122) || (48 ≤ n && n ≤ 57) ||
        n == 42 || n == 45 || n == 46 || n == 95 then [c]
    else (utf8Char c).map percentByte |>.flatten

/-- `URLSearchParams.toString`. -/
def searchParamsToString (ps : List (String × String)) : String :=
  String.intercalate "&" (ps.map (fun p =>
    String.mk ((p.1.toList.map formEncodeChar).flatten) ++ "=" ++
    String.mk ((p.2.toList.map formEncodeChar).flatten)))

/-- The path `AccessCardsApi.list` requests; `if (state)` is a JS
truthiness check, so an empty-string state appends nothing. -/
def listPath (templateId : String) (state : Option String) : String :=
  let params := [("template_id", templateId)] ++
    (match state with
     | some s => if s = "" then [] else [("state", s)]
     | none => [])
  "/v1/key-cards?" ++ searchParamsToString params

/-- The post-processing of `AccessCardsApi.list`:
`(response.keys || []).map(item => new AccessCard(item))`.  Reading `keys`
throws on a `null` body; a truthy non-array `keys` (an inherited
`Array.prototype.keys` on an array body, a non-empty string, ...) makes
`.map` throw a TypeError; a `null` element makes the constructor throw. -/
def listPostProcess (response : JVal) : Except String (List AccessCard) :=
  match getField response "keys" with
  | .error m => .error m
  | .ok keysVal =>
    let arrVal := if jsTruthy keysVal then keysVal else .jarr []
    match arrVal with
    | .jarr items => mapToAccessCards items
    | _ => .error "map is not a function"

/-- `AccessCardsApi.list`: a GET on the key-cards path with query
parameters, then the keys-to-cards mapping. -/
def accessCardsList (cfg : ClientConfig) (templateId : String)
    (state : Option String) (world : FetchOutcome) :
    Except JsThrown (List AccessCard) :=
  match (request cfg (listPath templateId state) {} world).outcome with
  | .error e => .error (.api e)
  | .ok response =>
      match listPostProcess response with
      | .ok cards => .ok cards
      | .error m => .error (.plain m)

/-- The path `AccessCardsApi.manage` posts to. -/
def managePath (cardId action : String) : String :=
  "/v1/key-cards/" ++ cardId ++ "/" ++ action

/-- `AccessCardsApi.manage` (used by suspend/resume/unlink/delete): a POST
with no body to the action-suffixed path, then `new AccessCard(response)`
(which throws on a `null` response body). -/
def manage (cfg : ClientConfig) (cardId action : String)
    (world : FetchOutcome) : Except JsThrown AccessCard :=
  match (request cfg (managePath cardId action) { method := some .POST } world).outcome with
  | .error e => .error (.api e)
  | .ok data =>
    match toAccessCard data with
    | .error m => .error (.plain m)
    | .ok card => .ok card

/-- A lowercase hexadecimal character. -/
def isLowerHex (c : Char) : Bool := decide (c ∈ "0123456789abcdef".toList)

/-- The four header keys `BaseApi.request` always writes. -/
def mandatoryHeaderKeys : List String :=
  ["Content-Type", "X-ACCT-ID", "X-PAYLOAD-SIG", "User-Agent"]

/-! ## Test vectors -/

-- HMAC-SHA-256 test vector (RFC 4231, test case 2).
example :
    bytesToHex (hmacSha256 (utf8Bytes "Jefe") (utf8Bytes "what do ya want for nothing?")) =
      "5bdcc146bf60754e6a042426089575c75a003f089d2739839dec58b964ec3843" := by
  decide

-- SHA-256 test vector (FIPS 180-2, "abc").
example :
    bytesToHex (sha256 (utf8Bytes "abc")) =
      "ba7816bf8f01cfea414140de5dae2223b00361a396177a9cb410ff61f20015ad" := by
  decide

-- btoa behaviour on the empty-object payload.
example : btoa "{}" = some "e30=" := by decide

-- The full signer on the empty-object payload.
example :
    generateSignature "test-secret-key" "{}" =
      .ok "be69fbd5f5935777aa806e0e6458e7b4a72f3464d4b82e005bfd8842e182f8f8" := by
  rfl

-- The synthetic payload and its URL encoding, as the spec's scenario lists them.
example : idPayload "0xc4rd1d" = "\x7b\"id\":\"0xc4rd1d\"\x7d" := by decide

example :
    encodeURIComponent (idPayload "0xc4rd1d") = "%7B%22id%22%3A%220xc4rd1d%22%7D" := by
  decide

/-! ## Helper lemmas -/

theorem hash8Bytes_length (hs : Hash8) : (hash8Bytes hs).length = 32 := by
  simp [hash8Bytes, be32]

theorem sha256_length (msg : List Nat) : (sha256 msg).length = 32 :=
  hash8Bytes_length _

theorem hmacSha256_length (key msg : List Nat) : (hmacSha256 key msg).length = 32 :=
  sha256_length _

theorem bytesToHexChars_length (bs : List Nat) :
    (bytesToHexChars bs).length = 2 * bs.length := by
  induction bs with
  | nil => rfl
  | cons b bs ih => simp [bytesToHexChars, byteToHex, ih]; omega

theorem isLowerHex_hexDigitL (n : Nat) : isLowerHex (hexDigitL n) = true := by
  unfold hexDigitL isLowerHex
  rcases h : "0123456789abcdef".toList.get? n with _ | c
  · rw [List.getD_eq_getD_get?, h]; decide
  · rw [List.getD_eq_getD_get?, h]
    exact decide_eq_true (List.get?_mem h)

theorem all_isLowerHex_bytesToHexChars (bs : List Nat) :
    (bytesToHexChars bs).all isLowerHex = true := by
  induction bs with
  | nil => rfl
  | cons b bs ih =>
    simp [bytesToHexChars, byteToHex, ih, isLowerHex_hexDigitL]

/-! ## The claims -/

/-- C1: whenever the signer returns a signature, that signature is the
lowercase-hex rendering (two characters per byte, 64 characters in all) of
the HMAC-SHA-256 digest keyed by the secret key's UTF-8 bytes over the UTF-8
bytes of the base64 encoding of the payload. -/
theorem signature_is_hex_hmac_of_base64 (secretKey payload s : String)
    (h : generateSignature secretKey payload = .ok s) :
    ∃ b64, btoa payload = some b64 ∧
      s = bytesToHex (hmacSha256 (utf8Bytes secretKey) (utf8Bytes b64)) ∧
      s.length = 64 ∧ s.toList.all isLowerHex = true := by
  unfold generateSignature at h
  rcases hb : btoa payload with _ | b64
  · rw [hb] at h; exact absurd h (by simp)
  · rw [hb] at h
    simp only [Except.ok.injEq] at h
    refine ⟨b64, rfl, h.symm, ?_, ?_⟩
    · rw [← h]
      show (bytesToHexChars (hmacSha256 (utf8Bytes secretKey) (utf8Bytes b64))).length = 64
      rw [bytesToHexChars_length, hmacSha256_length]
    · rw [← h]
      exact all_isLowerHex_bytesToHexChars _

theorem signature_is_hex_hmac_of_base64_witness :
    ∃ b64, btoa "{}" = some b64 ∧
      "be69fbd5f5935777aa806e0e6458e7b4a72f3464d4b82e005bfd8842e182f8f8" =
        bytesToHex (hmacSha256 (utf8Bytes "test-secret-key") (utf8Bytes b64)) ∧
      ("be69fbd5f5935777aa806e0e6458e7b4a72f3464d4b82e005bfd8842e182f8f8" : String).length = 64 ∧
      ("be69fbd5f5935777aa806e0e6458e7b4a72f3464d4b82e005bfd8842e182f8f8" : String).toList.all
        isLowerHex = true :=
  signature_is_hex_hmac_of_base64 "test-secret-key" "{}" _ rfl

/-- C2: for bodiless GET/POST requests (method GET, or POST with a
missing-or-empty body), the derived resource id is the second-to-last
non-empty path segment when the last one is an action word, else the last
segment when at least two exist; with fewer than two non-empty segments, no
id is derived and the payload-to-sign is `"{}"`. -/
theorem resource_id_derivation (method : Method)
    (body : Option (List (String × JVal))) (path : String)
    (hB : method = .GET ∨ (method = .POST ∧ bodyMissingOrEmpty body = true)) :
    (2 ≤ (pathParts path).length →
      actionWords.contains ((pathParts path).getLastD "") = true →
      deriveResourceId method path body =
        some ((pathParts path).getD ((pathParts path).length - 2) "")) ∧
    (2 ≤ (pathParts path).length →
      actionWords.contains ((pathParts path).getLastD "") = false →
      deriveResourceId method path body = some ((pathParts path).getLastD "")) ∧
    ((pathParts path).length < 2 →
      deriveResourceId method path body = none ∧
      resolveSigPayload method body (deriveResourceId method path body) = "{}") := by
  have hD : deriveResourceId method path body = extractResourceId path := by
    unfold deriveResourceId
    rw [if_pos hB]
  refine ⟨?_, ?_, ?_⟩
  · intro h1 h2
    rw [hD]
    simp only [extractResourceId]
    rw [if_pos h1, if_pos h2]
  · intro h1 h2
    rw [hD]
    simp only [extractResourceId]
    rw [if_pos h1, if_neg (by simpa using h2)]
  · intro h1
    have hN : extractResourceId path = none := by
      simp only [extractResourceId]
      rw [if_neg (by omega)]
    refine ⟨hD.trans hN, ?_⟩
    rw [hD, hN]
    rcases hB with hG | ⟨hP, hE⟩
    · subst hG; rfl
    · subst hP
      cases hbody : body with
      | none => rfl
      | some fs =>
        rw [hbody] at hE
        have hfs : fs = [] := List.length_eq_zero.mp (by simpa [bodyMissingOrEmpty] using hE)
        subst hfs
        rfl

theorem resource_id_derivation_witness :
    deriveResourceId .POST "/v1/key-cards/abc/suspend" none = some "abc" := by
  have h := (resource_id_derivation .POST none "/v1/key-cards/abc/suspend"
    (Or.inr ⟨rfl, rfl⟩)).1 (by decide) (by decide)
  rw [h]; decide

/-- C7: the catch clause re-raises a typed `AccessGridError` (including
`AuthenticationError`) unchanged — never double-wrapped — and wraps any
other error into `AccessGridError` with the underlying message embedded; in
particular a network failure surfaces as
`AccessGridError('API request failed: ' + message)`. -/
theorem catch_wraps_untyped_only :
    (∀ e : AGError, catchWrap (.api e) = e) ∧
    (∀ m : String, catchWrap (.plain m) =
      .accessGridError ("API request failed: " ++ m)) ∧
    (∀ (cfg : ClientConfig) (path : String) (opts : RequestOptions) (m sig : String),
      generateSignature cfg.secretKey (sigPayloadOf path opts) = .ok sig →
      (request cfg path opts (.networkFailure m)).outcome =
        .error (.accessGridError ("API request failed: " ++ m))) := by
  refine ⟨fun _ => rfl, fun _ => rfl, ?_⟩
  intro cfg path opts m sig hsig
  unfold sigPayloadOf at hsig
  simp only [request]
  rw [hsig]
  rfl

theorem catch_wraps_untyped_only_witness :
    (request ⟨"a", "k", "", "1.1.0"⟩ "/x/y" {} (.networkFailure "ECONNREFUSED")).outcome =
      .error (.accessGridError ("API request failed: " ++ "ECONNREFUSED")) :=
  catch_wraps_untyped_only.2.2 ⟨"a", "k", "", "1.1.0"⟩ "/x/y" {} "ECONNREFUSED"
    "f5988d5d78f5ab6ec393b169ea826698e0b1727aedbf3d8462ff7cb156788619" rfl

/-- C10: whenever the payload-to-sign contains a character above U+00FF,
`btoa` fails, the call resolves to an `AccessGridError` whose message begins
with `Failed to generate signature:`, and no fetch is ever issued. -/
theorem non_latin1_payload_fails_before_fetch (cfg : ClientConfig) (path : String)
    (opts : RequestOptions) (world : FetchOutcome)
    (hbad : (sigPayloadOf path opts).toList.all (fun c => c.toNat ≤ 255) = false) :
    (request cfg path opts world).outcome =
      .error (.accessGridError ("Failed to generate signature: " ++ btoaFailureMessage)) ∧
    "Failed to generate signature:".toList.isPrefixOf
      ("Failed to generate signature: " ++ btoaFailureMessage).toList = true ∧
    (request cfg path opts world).fetched = none := by
  have hsig : generateSignature cfg.secretKey (sigPayloadOf path opts) =
      .error ("Failed to generate signature: " ++ btoaFailureMessage) := by
    unfold generateSignature btoa latin1Bytes
    rw [if_neg (by rw [hbad]; decide)]
    rfl
  unfold sigPayloadOf at hsig
  simp only [request]
  rw [hsig]
  exact ⟨rfl, by decide, rfl⟩

theorem non_latin1_payload_fails_before_fetch_witness :
    (request ⟨"a", "k", "", "1.1.0"⟩ "/v1/key-cards"
        { method := some .POST, body := some [("full_name", .jstr "名前")] }
        (.response 200 (.ok .jnull))).outcome =
      .error (.accessGridError ("Failed to generate signature: " ++ btoaFailureMessage)) ∧
    "Failed to generate signature:".toList.isPrefixOf
      ("Failed to generate signature: " ++ btoaFailureMessage).toList = true ∧
    (request ⟨"a", "k", "", "1.1.0"⟩ "/v1/key-cards"
        { method := some .POST, body := some [("full_name", .jstr "名前")] }
        (.response 200 (.ok .jnull))).fetched = none :=
  non_latin1_payload_fails_before_fetch ⟨"a", "k", "", "1.1.0"⟩ "/v1/key-cards"
    { method := some .POST, body := some [("full_name", .jstr "名前")] }
    (.response 200 (.ok .jnull)) (by decide)

theorem any_key_map_update (m : List (String × String)) (k key v : String)
    (h : m.any (fun p => p.1 = k) = true) :
    (m.map (fun p => if p.1 = key then (key, v) else p)).any (fun p => p.1 = k) = true := by
  induction m with
  | nil => simp at h
  | cons hd tl ih =>
    simp only [List.any_cons, Bool.or_eq_true] at h
    rcases h with h | h
    · simp only [List.map_cons, List.any_cons, Bool.or_eq_true]
      left
      by_cases hk : hd.1 = key
      · rw [if_pos hk]
        have : hd.1 = k := by simpa using h
        simp [← hk, this]
      · rw [if_neg hk]
        exact h
    · simp only [List.map_cons, List.any_cons, Bool.or_eq_true]
      exact Or.inr (ih h)

theorem keyPresent_jsObjectSet (m : List (String × String)) (k key v : String)
    (h : m.any (fun p => p.1 = k) = true) :
    (jsObjectSet m key v).any (fun p => p.1 = k) = true := by
  unfold jsObjectSet
  by_cases hc : m.any (fun p => p.1 = key) = true
  · rw [if_pos hc]
    exact any_key_map_update m k key v h
  · rw [if_neg hc, List.any_append, h]
    rfl

theorem keyPresent_jsSpread (base extra : List (String × String)) (k : String)
    (h : base.any (fun p => p.1 = k) = true) :
    (jsSpread base extra).any (fun p => p.1 = k) = true := by
  induction extra generalizing base with
  | nil => exact h
  | cons p rest ih => exact ih _ (keyPresent_jsObjectSet base k p.1 p.2 h)

theorem headerLookup_map_update_ne (m : List (String × String)) (k key v : String)
    (hne : k ≠ key) :
    headerLookup (m.map (fun p => if p.1 = key then (key, v) else p)) k =
      headerLookup m k := by
  induction m with
  | nil => rfl
  | cons hd tl ih =>
    obtain ⟨k2, v2⟩ := hd
    simp only [List.map_cons]
    by_cases hk : k2 = key
    · have hrepl : (if ((k2, v2) : String × String).1 = key then (key, v) else (k2, v2)) =
          (key, v) := if_pos hk
      rw [hrepl]
      simp only [headerLookup]
      rw [if_neg (fun h : key = k => hne h.symm),
        if_neg (fun h : k2 = k => hne (hk ▸ h).symm)]
      exact ih
    · have hrepl : (if ((k2, v2) : String × String).1 = key then (key, v) else (k2, v2)) =
          (k2, v2) := if_neg hk
      rw [hrepl]
      simp only [headerLookup]
      by_cases hp : k2 = k
      · rw [if_pos hp, if_pos hp]
      · rw [if_neg hp, if_neg hp]
        exact ih

theorem headerLookup_append_single_ne (m : List (String × String)) (k key v : String)
    (hne : k ≠ key) :
    headerLookup (m ++ [(key, v)]) k = headerLookup m k := by
  induction m with
  | nil =>
    simp only [List.nil_append, headerLookup]
    rw [if_neg (fun h : key = k => hne h.symm)]
  | cons hd tl ih =>
    obtain ⟨k2, v2⟩ := hd
    simp only [List.cons_append, headerLookup]
    by_cases hp : k2 = k
    · rw [if_pos hp, if_pos hp]
    · rw [if_neg hp, if_neg hp]
      exact ih

theorem headerLookup_jsObjectSet_ne (m : List (String × String)) (k key v : String)
    (hne : k ≠ key) :
    headerLookup (jsObjectSet m key v) k = headerLookup m k := by
  unfold jsObjectSet
  by_cases hc : m.any (fun p => p.1 = key) = true
  · rw [if_pos hc]
    exact headerLookup_map_update_ne m k key v hne
  · rw [if_neg hc]
    exact headerLookup_append_single_ne m k key v hne

theorem headerLookup_jsSpread_of_fresh (base extra : List (String × String)) (k : String)
    (hk : ∀ p ∈ extra, p.1 ≠ k) :
    headerLookup (jsSpread base extra) k = headerLookup base k := by
  induction extra generalizing base with
  | nil => rfl
  | cons p rest ih =>
    have step : headerLookup (jsSpread (jsObjectSet base p.1 p.2) rest) k =
        headerLookup (jsObjectSet base p.1 p.2) k :=
      ih _ (fun q hq => hk q (List.mem_cons_of_mem _ hq))
    exact step.trans
      (headerLookup_jsObjectSet_ne base k p.1 p.2
        (fun he => hk p (List.mem_cons_self _ _) he.symm))

/-- Once signing has succeeded, the fetch call `BaseApi.request` issues is
fully determined: final URL via `resolveFinalUrl`, the four-plus-caller
headers, and the payload as body for every non-GET method. -/
theorem request_fetched_of_sig (cfg : ClientConfig) (path : String)
    (opts : RequestOptions) (world : FetchOutcome) (sig : String)
    (hsig : generateSignature cfg.secretKey (sigPayloadOf path opts) = .ok sig) :
    (request cfg path opts world).fetched =
      some { url := resolveFinalUrl (cfg.baseUrl ++ path) (opts.method.getD .GET)
                opts.body (deriveResourceId (opts.method.getD .GET) path opts.body),
             method := opts.method.getD .GET,
             headers := buildHeaders cfg.accountId cfg.version sig opts.headers,
             body := if opts.method.getD .GET = .GET then none
               else some (sigPayloadOf path opts) } := by
  unfold sigPayloadOf at hsig
  simp only [request]
  rw [hsig]
  cases world with
  | networkFailure m => rfl
  | response status jsonBody =>
    cases jsonBody with
    | error m => rfl
    | ok data =>
      simp only []
      split_ifs <;> try rfl
      all_goals (split <;> rfl)

/-- C3 counterexample: with a non-2xx status whose body carries
`message: ""`, the raised error's message is the fallback
`Request failed`, not the present-but-empty `message` field. -/
theorem status_dispatch_counterexample :
    (request ⟨"a", "k", "", "1.1.0"⟩ "/x/y" {}
        (.response 400 (.ok (.jobj [("message", .jstr "")])))).outcome =
      .error (.accessGridError "Request failed") ∧
    ("Request failed" : String) ≠ "" := ⟨rfl, by decide⟩

/-- C3 (amended): for a response whose body parses as JSON and whose status
is non-2xx, the dispatcher raises `AuthenticationError('Invalid
credentials')` at 401 and `AccessGridError('Insufficient account balance')`
at 402 regardless of the body; at any other non-2xx status it reads the
body's `message` property — on a `null` (or `undefined`) body that read
throws a TypeError which is wrapped as `AccessGridError('API request
failed: ...')`, and otherwise the raised `AccessGridError` carries the JS
string coercion of the `message` value when it is truthy, else
`Request failed`. -/
theorem status_dispatch (cfg : ClientConfig) (path : String) (opts : RequestOptions)
    (status : Nat) (data : JVal) (sig : String)
    (hsig : generateSignature cfg.secretKey (sigPayloadOf path opts) = .ok sig)
    (hnok : ¬(200 ≤ status ∧ status ≤ 299)) :
    (request cfg path opts (.response status (.ok data))).outcome =
      .error (if status = 401 then .authenticationError "Invalid credentials"
        else if status = 402 then .accessGridError "Insufficient account balance"
        else match getField data "message" with
          | .error m => .accessGridError ("API request failed: " ++ m)
          | .ok msgVal => .accessGridError (messageOrDefault msgVal)) := by
  unfold sigPayloadOf at hsig
  simp only [request]
  rw [hsig]
  have hok : responseOk status = false := by
    unfold responseOk
    by_cases h1 : 200 ≤ status
    · by_cases h2 : status ≤ 299
      · exact absurd ⟨h1, h2⟩ hnok
      · simp [h2]
    · simp [h1]
  rw [hok]
  by_cases h1 : status = 401
  · simp only [if_pos h1]
    rfl
  · by_cases h2 : status = 402
    · simp only [if_neg h1, if_pos h2]
      rfl
    · simp only [if_neg h1, if_neg h2]
      cases hgf : getField data "message" with
      | error m => rfl
      | ok msgVal => rfl

theorem status_dispatch_witness :
    (request ⟨"a", "k", "", "1.1.0"⟩ "/x/y" {}
        (.response 500 (.ok (.jobj [("message", .jstr "boom")])))).outcome =
      .error (if (500 : Nat) = 401 then .authenticationError "Invalid credentials"
        else if (500 : Nat) = 402 then .accessGridError "Insufficient account balance"
        else match getField (.jobj [("message", .jstr "boom")]) "message" with
          | .error m => .accessGridError ("API request failed: " ++ m)
          | .ok msgVal => .accessGridError (messageOrDefault msgVal)) :=
  status_dispatch ⟨"a", "k", "", "1.1.0"⟩ "/x/y" {} 500
    (.jobj [("message", .jstr "boom")])
    "f5988d5d78f5ab6ec393b169ea826698e0b1727aedbf3d8462ff7cb156788619" rfl
    (by omega)

-- A 400 with a JSON null body: reading data.message throws, and the catch
-- wraps the TypeError — not the "Request failed" fallback.
example :
    (request ⟨"a", "k", "", "1.1.0"⟩ "/x/y" {} (.response 400 (.ok .jnull))).outcome =
      .error (.accessGridError
        ("API request failed: " ++ "Cannot read properties of null (reading message)")) := by
  rfl

/-- C4 counterexample: the bodiless `suspend` POST does transmit a request
body — the synthetic `{"id": ...}` payload — rather than none. -/
theorem bodiless_post_counterexample :
    ((request ⟨"acct", "secret", "", "1.1.0"⟩ "/v1/key-cards/0xc4rd1d/suspend"
        { method := some .POST }
        (.response 200 (.ok (.jobj [("id", .jstr "mock-id")])))).fetched.map
      (fun c => c.body)) = some (some (idPayload "0xc4rd1d")) ∧
    idPayload "0xc4rd1d" ≠ "" := ⟨rfl, by decide⟩

/-- C4 (amended): a bodiless suspend POST carries the signature header and
the URL-encoded `sig_payload` query string, and transmits the signed
synthetic payload as its request body (only GET requests have no body). -/
theorem bodiless_post_transmits_payload (cfg : ClientConfig) (cardId : String)
    (world : FetchOutcome) (sig : String)
    (hr : deriveResourceId .POST (managePath cardId "suspend") none = some cardId)
    (hsig : generateSignature cfg.secretKey (idPayload cardId) = .ok sig) :
    ∃ call, (request cfg (managePath cardId "suspend")
        { method := some .POST } world).fetched = some call ∧
      headerLookup call.headers "X-PAYLOAD-SIG" = some sig ∧
      call.body = some (idPayload cardId) ∧
      call.url = addSigPayload (cfg.baseUrl ++ managePath cardId "suspend") cardId := by
  have hsig' : generateSignature cfg.secretKey
      (sigPayloadOf (managePath cardId "suspend")
        ({ method := some .POST } : RequestOptions)) = .ok sig := by
    show generateSignature cfg.secretKey
      (resolveSigPayload .POST none
        (deriveResourceId .POST (managePath cardId "suspend") none)) = .ok sig
    rw [hr]
    exact hsig
  refine ⟨_, request_fetched_of_sig cfg _ _ world sig hsig', rfl, ?_, ?_⟩
  · show some (sigPayloadOf (managePath cardId "suspend")
      ({ method := some .POST } : RequestOptions)) = some (idPayload cardId)
    show some (resolveSigPayload .POST none
      (deriveResourceId .POST (managePath cardId "suspend") none)) = some (idPayload cardId)
    rw [hr]
    rfl
  · show resolveFinalUrl (cfg.baseUrl ++ managePath cardId "suspend") .POST none
      (deriveResourceId .POST (managePath cardId "suspend") none) =
        addSigPayload (cfg.baseUrl ++ managePath cardId "suspend") cardId
    rw [hr]
    rfl

theorem bodiless_post_transmits_payload_witness :
    ∃ call, (request ⟨"acct", "secret", "", "1.1.0"⟩ (managePath "0xc4rd1d" "suspend")
        { method := some .POST } (.response 200 (.ok (.jobj [])))).fetched = some call ∧
      headerLookup call.headers "X-PAYLOAD-SIG" =
        some "631e83a92aa9a35bface8aa5e4529f443b587a1d46f826e2c85762c58b3e87e8" ∧
      call.body = some (idPayload "0xc4rd1d") ∧
      call.url = addSigPayload ("" ++ managePath "0xc4rd1d" "suspend") "0xc4rd1d" :=
  bodiless_post_transmits_payload ⟨"acct", "secret", "", "1.1.0"⟩ "0xc4rd1d"
    (.response 200 (.ok (.jobj [])))
    "631e83a92aa9a35bface8aa5e4529f443b587a1d46f826e2c85762c58b3e87e8"
    (by decide) rfl

/-- C5 counterexample: a PUT with an absent body derives no resource id,
signs the empty string (not the synthetic `{"id": ...}` payload), and leaves
the URL untouched. -/
theorem synthetic_payload_counterexample :
    deriveResourceId .PUT "/v1/key-cards/abc" none = none ∧
    sigPayloadOf "/v1/key-cards/abc" { method := some .PUT } = "" ∧
    resolveFinalUrl "/v1/key-cards/abc" .PUT none
      (deriveResourceId .PUT "/v1/key-cards/abc" none) = "/v1/key-cards/abc" ∧
    ("" : String) ≠ idPayload "abc" := ⟨rfl, rfl, rfl, by decide⟩

/-- C5 (amended): the synthetic-payload rule applies exactly to GET requests
(any body) and to POST with an absent body — there a derived resource id
makes the payload-to-sign `JSON.stringify({id: rid})` and appends it to the
URL as `sig_payload`.  PUT/PATCH with an absent body derive no id and sign
the empty string; POST with an empty-object body signs `"{}"` and gets no
`sig_payload` parameter. -/
theorem synthetic_payload_scope (path : String)
    (body : Option (List (String × JVal))) :
    (∀ rid, deriveResourceId .GET path body = some rid →
      resolveSigPayload .GET body (deriveResourceId .GET path body) = idPayload rid ∧
      ∀ url, resolveFinalUrl url .GET body (deriveResourceId .GET path body) =
        addSigPayload url rid) ∧
    (∀ rid, deriveResourceId .POST path none = some rid →
      resolveSigPayload .POST none (deriveResourceId .POST path none) = idPayload rid ∧
      ∀ url, resolveFinalUrl url .POST none (deriveResourceId .POST path none) =
        addSigPayload url rid) ∧
    (deriveResourceId .PUT path none = none ∧
      resolveSigPayload .PUT none (deriveResourceId .PUT path none) = "") ∧
    (deriveResourceId .PATCH path none = none ∧
      resolveSigPayload .PATCH none (deriveResourceId .PATCH path none) = "") ∧
    (resolveSigPayload .POST (some []) (deriveResourceId .POST path (some [])) = "{}" ∧
      ∀ url, resolveFinalUrl url .POST (some [])
        (deriveResourceId .POST path (some [])) = url) := by
  refine ⟨?_, ?_, ⟨rfl, rfl⟩, ⟨rfl, rfl⟩, rfl, fun url => rfl⟩
  · intro rid hr
    rw [hr]
    exact ⟨rfl, fun url => rfl⟩
  · intro rid hr
    rw [hr]
    exact ⟨rfl, fun url => rfl⟩

theorem synthetic_payload_scope_witness :
    resolveSigPayload .GET none (deriveResourceId .GET "/v1/key-cards/abc" none) =
      idPayload "abc" ∧
    resolveFinalUrl "/u" .GET none (deriveResourceId .GET "/v1/key-cards/abc" none) =
      addSigPayload "/u" "abc" := by
  have h := (synthetic_payload_scope "/v1/key-cards/abc" none).1 "abc" (by decide)
  exact ⟨h.1, h.2 "/u"⟩

/-- C6 counterexample: a POST with an empty-object body — bodiless in the
claim's missing-or-empty sense, as C2 and the spec use the word — derives a
resource id, yet the dispatcher appends no `sig_payload` to the URL
(`!options.body` is false for `\x7b\x7d`). -/
theorem sig_payload_query_counterexample :
    ((request ⟨"a", "k", "", "1.1.0"⟩ "/v1/key-cards/abc"
        { method := some .POST, body := some [] }
        (.response 200 (.ok (.jobj [])))).fetched.map (fun c => c.url)) =
      some "/v1/key-cards/abc" ∧
    deriveResourceId .POST "/v1/key-cards/abc" (some []) = some "abc" ∧
    ("/v1/key-cards/abc" : String) ≠ addSigPayload "/v1/key-cards/abc" "abc" :=
  ⟨rfl, by decide, by decide⟩

/-- C6 (amended): whenever a resource id was derived and the method is GET,
or POST with an absent body, the dispatched URL is the composed URL with
`sig_payload=<url-encoded JSON>` appended — `&`-separated when the URL
already contains `?`, else `?`-separated, the existing URL kept intact as a
prefix; a POST whose body is present (even the empty object, which still
derives a resource id) gets no `sig_payload` appended. -/
theorem sig_payload_query_append (cfg : ClientConfig) (path : String)
    (opts : RequestOptions) (world : FetchOutcome) (rid sig : String)
    (hm : opts.method.getD .GET = .GET ∨
      (opts.method.getD .GET = .POST ∧ opts.body = none))
    (hr : deriveResourceId (opts.method.getD .GET) path opts.body = some rid)
    (hsig : generateSignature cfg.secretKey (sigPayloadOf path opts) = .ok sig) :
    (∃ call, (request cfg path opts world).fetched = some call ∧
      call.url = (cfg.baseUrl ++ path) ++
        (if (cfg.baseUrl ++ path).toList.contains '?' then "&" else "?") ++
        "sig_payload=" ++ encodeURIComponent (idPayload rid)) ∧
    (∀ (url : String) (fs : List (String × JVal)) (rid2 : Option String),
      resolveFinalUrl url .POST (some fs) rid2 = url) := by
  constructor
  · refine ⟨_, request_fetched_of_sig cfg path opts world sig hsig, ?_⟩
    show resolveFinalUrl (cfg.baseUrl ++ path) (opts.method.getD .GET) opts.body
      (deriveResourceId (opts.method.getD .GET) path opts.body) = _
    rw [hr]
    unfold resolveFinalUrl
    rw [if_pos]
    · rfl
    · rcases hm with h | ⟨h1, h2⟩
      · exact Or.inl h
      · exact Or.inr ⟨h1, by rw [h2]; rfl⟩
  · intro url fs rid2
    rfl

theorem sig_payload_query_append_witness :
    ∃ call, (request ⟨"a", "k", "", "1.1.0"⟩ "/x/y" {}
        (.response 200 (.ok .jnull))).fetched = some call ∧
      call.url = (("" : String) ++ "/x/y") ++
        (if (("" : String) ++ "/x/y").toList.contains '?' then "&" else "?") ++
        "sig_payload=" ++ encodeURIComponent (idPayload "y") :=
  (sig_payload_query_append ⟨"a", "k", "", "1.1.0"⟩ "/x/y" {}
    (.response 200 (.ok .jnull)) "y"
    "f5988d5d78f5ab6ec393b169ea826698e0b1727aedbf3d8462ff7cb156788619"
    (Or.inl rfl) (by decide) rfl).1

/-- C8 counterexample: a caller-supplied `X-ACCT-ID` header silently
overrides the mandatory account-id header. -/
theorem mandatory_headers_counterexample :
    headerLookup (buildHeaders "acct" "1.1.0" "sig" [("X-ACCT-ID", "evil")])
      "X-ACCT-ID" = some "evil" ∧
    ("evil" : String) ≠ "acct" := ⟨rfl, by decide⟩

/-- C8 (amended): the built header map always contains the four mandatory
header keys, and when the caller supplies none of those keys their values
are the mandatory ones; a caller-supplied colliding key, however, overrides
the mandatory value (last-write-wins). -/
theorem mandatory_headers (accountId version sig : String)
    (caller : List (String × String)) :
    ((buildHeaders accountId version sig caller).any
        (fun p => p.1 = "Content-Type") = true ∧
      (buildHeaders accountId version sig caller).any
        (fun p => p.1 = "X-ACCT-ID") = true ∧
      (buildHeaders accountId version sig caller).any
        (fun p => p.1 = "X-PAYLOAD-SIG") = true ∧
      (buildHeaders accountId version sig caller).any
        (fun p => p.1 = "User-Agent") = true) ∧
    ((∀ p ∈ caller, p.1 ∉ mandatoryHeaderKeys) →
      headerLookup (buildHeaders accountId version sig caller) "Content-Type" =
        some "application/json" ∧
      headerLookup (buildHeaders accountId version sig caller) "X-ACCT-ID" =
        some accountId ∧
      headerLookup (buildHeaders accountId version sig caller) "X-PAYLOAD-SIG" =
        some sig ∧
      headerLookup (buildHeaders accountId version sig caller) "User-Agent" =
        some ("accessgrid.js @ v" ++ version)) := by
  constructor
  · exact ⟨keyPresent_jsSpread _ caller _ rfl, keyPresent_jsSpread _ caller _ rfl,
      keyPresent_jsSpread _ caller _ rfl, keyPresent_jsSpread _ caller _ rfl⟩
  · intro hfresh
    have fresh : ∀ k, k ∈ mandatoryHeaderKeys →
        headerLookup (buildHeaders accountId version sig caller) k =
          headerLookup [("Content-Type", "application/json"),
            ("X-ACCT-ID", accountId), ("X-PAYLOAD-SIG", sig),
            ("User-Agent", "accessgrid.js @ v" ++ version)] k := by
      intro k hkmem
      exact headerLookup_jsSpread_of_fresh _ caller k
        (fun p hp he => hfresh p hp (he ▸ hkmem))
    refine ⟨?_, ?_, ?_, ?_⟩
    · rw [fresh "Content-Type" (by decide)]; rfl
    · rw [fresh "X-ACCT-ID" (by decide)]; rfl
    · rw [fresh "X-PAYLOAD-SIG" (by decide)]; rfl
    · rw [fresh "User-Agent" (by decide)]; rfl

theorem mandatory_headers_witness :
    headerLookup (buildHeaders "acct" "1.1.0" "sig" [("X-Custom", "1")])
      "X-ACCT-ID" = some "acct" ∧
    (buildHeaders "acct" "1.1.0" "sig" [("X-Custom", "1")]).any
      (fun p => p.1 = "X-PAYLOAD-SIG") = true :=
  ⟨((mandatory_headers "acct" "1.1.0" "sig" [("X-Custom", "1")]).2
      (by decide)).2.1,
    (mandatory_headers "acct" "1.1.0" "sig" [("X-Custom", "1")]).1.2.2.1⟩

/-- `accessCardsList` unfolded on its request outcome. -/
theorem accessCardsList_eq (cfg : ClientConfig) (templateId : String)
    (state : Option String) (world : FetchOutcome) :
    accessCardsList cfg templateId state world =
      match (request cfg (listPath templateId state) {} world).outcome with
      | .error e => .error (.api e)
      | .ok response =>
        match listPostProcess response with
        | .ok cards => .ok cards
        | .error m => .error (.plain m) := rfl

/-- C9: a successful `list` response whose `keys` field is an array, each of
whose elements constructs an `AccessCard`, yields exactly those mapped cards;
and a response whose `keys` property reads as `undefined` (a response object
without a `keys` field) yields the empty list rather than failing. -/
theorem list_maps_keys (cfg : ClientConfig) (templateId : String)
    (state : Option String) (world : FetchOutcome) (data : JVal)
    (hok : (request cfg (listPath templateId state) {} world).outcome = .ok data) :
    (∀ items cards, getField data "keys" = .ok (.jarr items) →
      mapToAccessCards items = .ok cards →
      accessCardsList cfg templateId state world = .ok cards) ∧
    (getField data "keys" = .ok .jundefined →
      accessCardsList cfg templateId state world = .ok []) := by
  constructor
  · intro items cards hk hmap
    rw [accessCardsList_eq, hok]
    show (match listPostProcess data with
      | Except.ok cs => (Except.ok cs : Except JsThrown (List AccessCard))
      | Except.error m => Except.error (JsThrown.plain m)) = .ok cards
    have hpost : listPostProcess data = .ok cards := by
      unfold listPostProcess
      rw [hk]
      exact hmap
    rw [hpost]
  · intro hk
    rw [accessCardsList_eq, hok]
    show (match listPostProcess data with
      | Except.ok cs => (Except.ok cs : Except JsThrown (List AccessCard))
      | Except.error m => Except.error (JsThrown.plain m)) = .ok []
    have hpost : listPostProcess data = .ok [] := by
      unfold listPostProcess
      rw [hk]
      rfl
    rw [hpost]

theorem list_maps_keys_witness :
    accessCardsList ⟨"a", "k", "", "1.1.0"⟩ "t" none
        (.response 200 (.ok (.jobj [("keys", .jarr [.jobj [("id", .jstr "1")]])]))) =
      .ok [{ id := .jstr "1", url := .jundefined, state := .jundefined,
             fullName := .jundefined, expirationDate := .jundefined }] :=
  (list_maps_keys ⟨"a", "k", "", "1.1.0"⟩ "t" none
      (.response 200 (.ok (.jobj [("keys", .jarr [.jobj [("id", .jstr "1")]])])))
      (.jobj [("keys", .jarr [.jobj [("id", .jstr "1")]])]) rfl).1
    [JVal.jobj [("id", .jstr "1")]]
    [{ id := .jstr "1", url := .jundefined, state := .jundefined,
       fullName := .jundefined, expirationDate := .jundefined }] rfl rfl

-- The list error paths stay errors: a 2xx JSON null body throws on
-- `null.keys`; a 2xx array body surfaces the inherited truthy
-- `Array.prototype.keys`, so `.map` throws; a null element makes
-- `new AccessCard(null)` throw.
example :
    accessCardsList ⟨"a", "k", "", "1.1.0"⟩ "t" none (.response 200 (.ok .jnull)) =
      .error (.plain "Cannot read properties of null (reading keys)") := by
  rfl

example :
    accessCardsList ⟨"a", "k", "", "1.1.0"⟩ "t" none (.response 200 (.ok (.jarr []))) =
      .error (.plain "map is not a function") := by
  rfl

example :
    accessCardsList ⟨"a", "k", "", "1.1.0"⟩ "t" none
        (.response 200 (.ok (.jobj [("keys", .jarr [.jnull])]))) =
      .error (.plain "Cannot read properties of null (reading id)") := by
  rfl

end AccessGridJs
